import Mathlib

/-!
Shallow embedding of `src/jira_mcp.py` (an MCP adapter for the Jira REST
API) and proofs about its normalizer, query builder, dispatcher and
backend-client logic.

Python values flowing through the adapter are modelled by the `Json`
inductive below.  Python expressions that can raise (dict subscript,
list indexing, attribute access on a non-dict) are modelled in the
`Except Unit` monad, where `Except.error ()` stands for a raised
exception.  HTTP traffic itself is external: each modelled operation
takes the decoded response body (or an `Except` outcome standing for
"the HTTP call raised") as an argument.
-/

namespace JiraMcp

/-- A Python/JSON value as it appears in decoded `response.json()` data. -/
inductive Json where
  | null
  | str (s : String)
  | num (n : Int)
  | boolean (b : Bool)
  | arr (elems : List Json)
  | obj (fields : List (String × Json))

/-- Python truthiness of a JSON value: `None`, `""`, `0`, `False`, `[]`
and an empty dict are falsy, everything else is truthy. -/
def Json.truthy : Json → Bool
  | .null => false
  | .str s => s ≠ ""
  | .num n => n ≠ 0
  | .boolean b => b
  | .arr xs => ¬ xs.isEmpty
  | .obj fs => ¬ fs.isEmpty

/-- Python `d.get(k, default)`: returns the value stored under `k`
(or the default when the key is absent); raises `AttributeError`
when the receiver is not a dict. -/
def Json.dictGet : Json → String → Json → Except Unit Json
  | .obj fs, k, dflt => .ok ((fs.lookup k).getD dflt)
  | _, _, _ => .error ()

/-- Python `d[k]` on a dict: raises `KeyError` when the key is absent
and `TypeError` when the receiver is not a dict. -/
def Json.item : Json → String → Except Unit Json
  | .obj fs, k =>
    match fs.lookup k with
    | some v => .ok v
    | none => .error ()
  | _, _ => .error ()

/-- Python `xs[i]` on a list: raises `IndexError` when out of range and
`TypeError` when the receiver is not a list. -/
def Json.index : Json → Nat → Except Unit Json
  | .arr xs, i =>
    match xs.get? i with
    | some v => .ok v
    | none => .error ()
  | _, _ => .error ()

/-- Python iteration `for x in j`: a list yields its elements, a dict its
keys, a string its characters; other values raise `TypeError`. -/
def pyIter : Json → Except Unit (List Json)
  | .arr xs => .ok xs
  | .obj fs => .ok (fs.map fun p => Json.str p.fst)
  | .str s => .ok (s.toList.map fun c => Json.str (String.mk [c]))
  | _ => .error ()

/-- The `JiraIssue` dataclass (jira_mcp.py lines 26-37).  Field values are
kept as `Json`: Python performs no runtime check that, say, `summary`
is really a string. -/
structure JiraIssue where
  key : Json
  summary : Json
  status : Json
  assignee : Json
  priority : Json
  issue_type : Json
  created : Json
  updated : Json
  description : Json

/-- The `JiraProject` dataclass (lines 39-45). -/
structure JiraProject where
  key : Json
  name : Json
  project_type : Json
  lead : Json

/-- Line 132/158: `fields.get("summary", "Sin título")`. -/
def extractSummary (fields : Json) : Except Unit Json :=
  fields.dictGet "summary" (Json.str "Sin título")

/-- Line 133/159: `fields.get("status", {}).get("name", "Desconocido")`. -/
def extractStatus (fields : Json) : Except Unit Json := do
  let s ← fields.dictGet "status" (Json.obj [])
  s.dictGet "name" (Json.str "Desconocido")

/-- Line 134/160: `fields.get("assignee", {}).get("displayName", "Sin
asignar") if fields.get("assignee") else "Sin asignar"`.  The guard is
evaluated first; the nested access runs only when the raw `assignee`
value is truthy. -/
def extractAssignee (fields : Json) : Except Unit Json := do
  let cond ← fields.dictGet "assignee" Json.null
  if cond.truthy then
    let a ← fields.dictGet "assignee" (Json.obj [])
    a.dictGet "displayName" (Json.str "Sin asignar")
  else
    pure (Json.str "Sin asignar")

/-- Line 135/161: same null-guarded pattern for `priority`. -/
def extractPriority (fields : Json) : Except Unit Json := do
  let cond ← fields.dictGet "priority" Json.null
  if cond.truthy then
    let p ← fields.dictGet "priority" (Json.obj [])
    p.dictGet "name" (Json.str "Sin prioridad")
  else
    pure (Json.str "Sin prioridad")

/-- Line 136/162: `fields.get("issuetype", {}).get("name", "Desconocido")`. -/
def extractIssueType (fields : Json) : Except Unit Json := do
  let t ← fields.dictGet "issuetype" (Json.obj [])
  t.dictGet "name" (Json.str "Desconocido")

/-- Line 139/165: `fields.get("description", {}).get("content",
[{}])[0].get("content", [{}])[0].get("text", "") if
fields.get("description") else ""`. -/
def extractDescription (fields : Json) : Except Unit Json := do
  let cond ← fields.dictGet "description" Json.null
  if cond.truthy then
    let d ← fields.dictGet "description" (Json.obj [])
    let c1 ← d.dictGet "content" (Json.arr [Json.obj []])
    let e1 ← c1.index 0
    let c2 ← e1.dictGet "content" (Json.arr [Json.obj []])
    let e2 ← c2.index 0
    e2.dictGet "text" (Json.str "")
  else
    pure (Json.str "")

/-- Normalization of one raw issue into a `JiraIssue` (lines 129-140; the
body of `get_issue`, lines 154-166, is the same record construction).
`fields = issue["fields"]` runs first, then the constructor arguments
are evaluated left to right. -/
def normalizeIssue (issue : Json) : Except Unit JiraIssue := do
  let fields ← issue.item "fields"
  let key ← issue.item "key"
  let summary ← extractSummary fields
  let status ← extractStatus fields
  let assignee ← extractAssignee fields
  let priority ← extractPriority fields
  let issue_type ← extractIssueType fields
  let created ← fields.dictGet "created" (Json.str "")
  let updated ← fields.dictGet "updated" (Json.str "")
  let description ← extractDescription fields
  pure { key, summary, status, assignee, priority, issue_type, created,
         updated, description }

/-- The accumulation loop of `search_issues` (lines 127-140): normalize
each raw issue in order, appending to the result list; a raised
exception aborts the whole call. -/
def normalizeAll : List Json → Except Unit (List JiraIssue)
  | [] => .ok []
  | x :: xs => do
    let i ← normalizeIssue x
    let rest ← normalizeAll xs
    pure (i :: rest)

/-- Python truthiness of an `Optional[str]` argument: `None` and `""`
are falsy. -/
def strTruthy : Option String → Bool
  | none => false
  | some s => s ≠ ""

/-- Python `str.lower()`: character-wise case folding (the tokens it is
applied to here — `"me"`, transition names — are ASCII). -/
def pyLower (s : String) : String := String.mk (s.data.map Char.toLower)

/-- The JQL construction of `search_issues` (lines 100-110): a truthy
`jql` argument is used verbatim; otherwise conditions are collected
from `assignee` (with `assignee.lower() == "me"` mapped to
`currentUser()`) and `project`, joined with `" AND "`, defaulting to
the ordering clause when no condition was collected. -/
def buildJql (jql assignee project : Option String) : String :=
  if ¬ strTruthy jql then
    let conditions : List String :=
      (if strTruthy assignee then
        [if pyLower (assignee.getD "") = "me" then
          "assignee = currentUser()"
        else
          "assignee = '" ++ assignee.getD "" ++ "'"]
      else []) ++
      (if strTruthy project then
        ["project = '" ++ project.getD "" ++ "'"]
      else [])
    if conditions.isEmpty then "order by updated DESC"
    else String.intercalate " AND " conditions
  else
    jql.getD ""

/-- The request parameters `search_issues` sends to
`GET /rest/api/3/search` (lines 112-116). -/
structure SearchParams where
  jql : String
  maxResults : Int
  fields : String

/-- `JiraManager.search_issues` (lines 96-142) after the HTTP exchange:
the query is built, `maxResults` is forwarded to the backend inside the
request parameters, and every element of `data.get("issues", [])` in the
decoded response body is normalized — there is no client-side
truncation of the returned page. -/
def search_issues (jql assignee project : Option String) (max_results : Int)
    (response : Json) : Except Unit (List JiraIssue) := do
  let q := buildJql jql assignee project
  let _params : SearchParams :=
    { jql := q, maxResults := max_results,
      fields := "summary,status,assignee,priority,issuetype,created,updated,description" }
  let issuesVal ← response.dictGet "issues" (Json.arr [])
  let rawIssues ← pyIter issuesVal
  normalizeAll rawIssues

/-- `JiraManager.get_issue` (lines 144-166): after a successful HTTP
response the body builds the very same record as the search normalizer
and returns it; the `Optional` annotation notwithstanding, `None` is
never produced. -/
def get_issue (response : Json) : Except Unit (Option JiraIssue) := do
  let i ← normalizeIssue response
  pure (some i)

/-- Normalization of one raw project (lines 86-94). -/
def normalizeProject (project : Json) : Except Unit JiraProject := do
  let key ← project.item "key"
  let name ← project.item "name"
  let project_type ← project.dictGet "projectTypeKey" (Json.str "unknown")
  let lead0 ← project.dictGet "lead" (Json.obj [])
  let lead ← lead0.dictGet "displayName" (Json.str "Sin asignar")
  pure { key, name, project_type, lead }

/-- The matching loop of `transition_issue` (lines 214-218): walk the
transitions in order, comparing `transition["name"].lower()` with the
lowercased requested name, and keep the first matching transition's
`id`.  Non-dict elements or a missing `name` raise; `.lower()` on a
non-string raises. -/
def findTransitionId : List Json → String → Except Unit (Option Json)
  | [], _ => .ok none
  | t :: ts, transition_name => do
    let n ← t.item "name"
    match n with
    | .str s =>
      if pyLower s = pyLower transition_name then do
        let i ← t.item "id"
        pure (some i)
      else
        findTransitionId ts transition_name
    | _ => .error ()

/-- `JiraManager.transition_issue` (lines 202-234) after the first HTTP
exchange.  `transitionsResponse` is the decoded body of the
transitions GET; `postSucceeds` tells whether the mutating POST, if
issued, comes back with a success status (`raise_for_status` raises
otherwise).  The result pairs the id submitted in the POST body
(`none` when no POST was issued) with the returned boolean. -/
def transition_issue (transitionsResponse : Json) (transition_name : String)
    (postSucceeds : Bool) : Except Unit (Option Json × Bool) := do
  let transitionsVal ← transitionsResponse.dictGet "transitions" (Json.arr [])
  let transitions ← pyIter transitionsVal
  let transition_id ← findTransitionId transitions transition_name
  if ¬ ((transition_id.getD Json.null).truthy) then
    pure (none, false)
  else
    if postSucceeds then pure (transition_id, true) else .error ()

/-- The request body of `assign_issue` (lines 238-240):
`{"accountId": assignee if assignee != "me" else None}`. -/
def assignBody (assignee : String) : Json :=
  Json.obj [("accountId", if assignee ≠ "me" then Json.str assignee else Json.null)]

/-- `JiraManager.assign_issue` (lines 236-249): issues one PUT whose body
is `assignBody` and returns `True` when the backend answers with a
success status (`raise_for_status` raises otherwise).  The result pairs
the submitted body with the returned boolean. -/
def assign_issue (assignee : String) (putSucceeds : Bool) :
    Except Unit (Json × Bool) :=
  if putSucceeds then .ok (assignBody assignee, true) else .error ()

/-- The per-issue payload built by the `jira://my-issues` resource
(lines 295-305). -/
def myIssueJson (i : JiraIssue) : Json :=
  Json.obj [("key", i.key), ("summary", i.summary), ("status", i.status),
            ("priority", i.priority), ("type", i.issue_type),
            ("updated", i.updated)]

/-- The per-project payload built by the `jira://projects` resource
(lines 310-318). -/
def projectJson (p : JiraProject) : Json :=
  Json.obj [("key", p.key), ("name", p.name), ("type", p.project_type),
            ("lead", p.lead)]

/-- The per-issue payload built by the `jira://recent-issues` resource
(lines 323-332). -/
def recentIssueJson (i : JiraIssue) : Json :=
  Json.obj [("key", i.key), ("summary", i.summary), ("status", i.status),
            ("assignee", i.assignee), ("updated", i.updated)]

/-- `read_resource` (lines 289-339), modelled up to JSON serialization:
the value returned is the payload handed to `json.dumps`.  The three
backend interactions (`search_issues(assignee="me", max_results=20)`,
`get_projects()`, `search_issues(jql="order by updated DESC",
max_results=20)`) are taken as `Except String` arguments whose `error`
case stands for any exception raised inside the `try` block, carrying
`str(e)`.  The unknown-URI branch raises
`ValueError(f"Recurso no encontrado: {uri}")`; the surrounding
`except Exception` turns every raised exception into
`{"error": str(e)}`, so the function as a whole never raises. -/
def read_resource (uri : String)
    (myIssues : Except String (List JiraIssue))
    (projects : Except String (List JiraProject))
    (recentIssues : Except String (List JiraIssue)) : Json :=
  let body : Except String Json :=
    if uri = "jira://my-issues" then do
      let issues ← myIssues
      pure (Json.arr (issues.map myIssueJson))
    else if uri = "jira://projects" then do
      let ps ← projects
      pure (Json.arr (ps.map projectJson))
    else if uri = "jira://recent-issues" then do
      let issues ← recentIssues
      pure (Json.arr (issues.map recentIssueJson))
    else
      .error ("Recurso no encontrado: " ++ uri)
  match body with
  | .ok payload => payload
  | .error e => Json.obj [("error", Json.str e)]

/-- Whether a payload is an object carrying an `"error"` field. -/
def hasErrorField : Json → Bool
  | .obj fs => (fs.lookup "error").isSome
  | _ => false

/-- Python `repr()` of a JSON value (container elements render
recursively; strings gain quotes). -/
def pyRepr : Json → String
  | .null => "None"
  | .str s => "'" ++ s ++ "'"
  | .num n => toString n
  | .boolean true => "True"
  | .boolean false => "False"
  | .arr xs =>
    "[" ++ String.intercalate ", " (xs.attach.map fun x => pyRepr x.val) ++ "]"
  | .obj fs =>
    "\x7b" ++
      String.intercalate ", "
        (fs.attach.map fun f =>
          "'" ++ f.val.fst ++ "': " ++ pyRepr f.val.snd) ++ "\x7d"
decreasing_by
  · have h := List.sizeOf_lt_of_mem x.property
    simp only [Json.arr.sizeOf_spec]
    omega
  · obtain ⟨⟨k, v⟩, hf⟩ := f
    have h := List.sizeOf_lt_of_mem hf
    simp only [Prod.mk.sizeOf_spec] at h
    simp only [Json.obj.sizeOf_spec]
    omega

/-- Python `str()` of a JSON value, as used by f-string interpolation in
`call_tool` (on everything but a string it agrees with `repr`). -/
def pyStr : Json → String
  | .str s => s
  | j => pyRepr j

/-- `arguments.get(k)` on the tool-arguments dict: `None` when absent. -/
def argGet (args : List (String × Json)) (k : String) : Json :=
  (args.lookup k).getD Json.null

/-- `arguments.get(k, default)` on the tool-arguments dict. -/
def argGetD (args : List (String × Json)) (k : String) (dflt : Json) : Json :=
  (args.lookup k).getD dflt

/-- The first backend interaction a `call_tool` branch performs, with the
arguments it is invoked with. -/
inductive BackendCall where
  | searchIssues (jql assignee project max_results : Json)
  | getIssue (issue_key : Json)
  | createIssue (project_key summary description issue_type : Json)
  | transitionIssue (issue_key transition : Json)
  | searchMyIssues (jql : String)

/-- How a `call_tool` branch proceeds after argument validation:
`reject text` means the dispatcher returns the given user-facing text
immediately, with no backend HTTP call ever issued for this request;
`invoke c` means it proceeds to the backend call `c`. -/
inductive DispatchStep where
  | reject (text : String)
  | invoke (call : BackendCall)

/-- `call_tool` (lines 407-538) up to its first backend interaction:
argument extraction and required-argument validation for each tool
branch, and the unknown-tool fallback.  `not x` / `not all([...])`
follow Python truthiness, so an argument that is absent (`None`) or
present but falsy fails validation. -/
def callToolStep (name : String) (args : List (String × Json)) : DispatchStep :=
  if name = "search_issues" then
    let jql := argGet args "jql"
    let assignee := argGet args "assignee"
    let project := argGet args "project"
    let max_results := argGetD args "max_results" (Json.num 20)
    .invoke (.searchIssues jql assignee project max_results)
  else if name = "get_issue" then
    let issue_key := argGet args "issue_key"
    if ¬ issue_key.truthy then
      .reject "❌ Error: Se requiere issue_key"
    else
      .invoke (.getIssue issue_key)
  else if name = "create_issue" then
    let project_key := argGet args "project_key"
    let summary := argGet args "summary"
    let description := argGet args "description"
    let issue_type := argGetD args "issue_type" (Json.str "Task")
    if ¬ (project_key.truthy && summary.truthy && description.truthy) then
      .reject "❌ Error: Se requieren project_key, summary y description"
    else
      .invoke (.createIssue project_key summary description issue_type)
  else if name = "transition_issue" then
    let issue_key := argGet args "issue_key"
    let transition := argGet args "transition"
    if ¬ (issue_key.truthy && transition.truthy) then
      .reject "❌ Error: Se requieren issue_key y transition"
    else
      .invoke (.transitionIssue issue_key transition)
  else if name = "get_my_issues" then
    let status_filter := argGet args "status"
    let jql0 := "assignee = currentUser()"
    let jql1 :=
      if status_filter.truthy then
        jql0 ++ " AND status = '" ++ pyStr status_filter ++ "'"
      else jql0
    .invoke (.searchMyIssues (jql1 ++ " ORDER BY updated DESC"))
  else
    .reject ("❌ Herramienta desconocida: " ++ name)

/-- The `get_issue` tool branch after the backend call returns (lines
444-449): Python `if not issue:` on an `Optional[JiraIssue]` is true
exactly when the value is `None` (a dataclass instance is always
truthy), and only then is the not-found message produced. -/
def getIssueNotFoundBranch (issue_key : String) (issue : Option JiraIssue) :
    Option String :=
  match issue with
  | none => some ("❌ No se encontró el issue: " ++ issue_key)
  | some _ => none

/-- A well-formed element of the `transitions` array of the transitions
GET response: a display name and an opaque id. -/
def mkTransition (name id : String) : Json :=
  Json.obj [("name", Json.str name), ("id", Json.str id)]

/-- A transitions GET response whose `transitions` array holds the given
(name, id) pairs. -/
def mkTransitionsResponse (ts : List (String × String)) : Json :=
  Json.obj [("transitions", Json.arr (ts.map fun p => mkTransition p.1 p.2))]

/- ------------------------------------------------------------------ -/
/- Helper lemmas                                                       -/
/- ------------------------------------------------------------------ -/

theorem intercalate_singleton (sep x : String) :
    String.intercalate sep [x] = x := rfl

theorem normalizeAll_length (xs : List Json) (out : List JiraIssue)
    (h : normalizeAll xs = .ok out) : out.length = xs.length := by
  induction xs generalizing out with
  | nil =>
    simp only [normalizeAll] at h
    cases h
    rfl
  | cons x rest ih =>
    simp only [normalizeAll] at h
    cases h1 : normalizeIssue x with
    | error e => rw [h1] at h; cases h
    | ok i =>
      rw [h1] at h
      cases h2 : normalizeAll rest with
      | error e => rw [h2] at h; cases h
      | ok js =>
        rw [h2] at h
        cases h
        simp [ih js h2]

theorem search_issues_on_array (jql a p : Option String) (mr : Int)
    (xs : List Json) :
    search_issues jql a p mr (Json.obj [("issues", Json.arr xs)]) =
      normalizeAll xs := rfl

theorem findTransitionId_cons (name id : String) (rest : List Json)
    (nm : String) :
    findTransitionId (mkTransition name id :: rest) nm =
      if pyLower name = pyLower nm then .ok (some (Json.str id))
      else findTransitionId rest nm := rfl

theorem findTransitionId_no_match (ts : List (String × String)) (nm : String)
    (h : ∀ p ∈ ts, pyLower p.1 ≠ pyLower nm) :
    findTransitionId (ts.map fun p => mkTransition p.1 p.2) nm = .ok none := by
  induction ts with
  | nil => rfl
  | cons hd tl ih =>
    rw [List.map_cons, findTransitionId_cons,
        if_neg (h hd (List.mem_cons_self hd tl))]
    exact ih fun p hp => h p (List.mem_cons_of_mem hd hp)

theorem findTransitionId_first_match (ts : List (String × String))
    (nm : String) (hex : ∃ p ∈ ts, pyLower p.1 = pyLower nm) :
    ∃ p ∈ ts, pyLower p.1 = pyLower nm ∧
      findTransitionId (ts.map fun p => mkTransition p.1 p.2) nm =
        .ok (some (Json.str p.2)) := by
  induction ts with
  | nil => simp at hex
  | cons hd tl ih =>
    by_cases hc : pyLower hd.1 = pyLower nm
    · refine ⟨hd, List.mem_cons_self hd tl, hc, ?_⟩
      rw [List.map_cons, findTransitionId_cons, if_pos hc]
    · have hex' : ∃ p ∈ tl, pyLower p.1 = pyLower nm := by
        rcases hex with ⟨p, hp, hm⟩
        rcases List.mem_cons.mp hp with hhd | htl
        · exact absurd (hhd ▸ hm) hc
        · exact ⟨p, htl, hm⟩
      rcases ih hex' with ⟨p, hp, hm, hf⟩
      refine ⟨p, List.mem_cons_of_mem hd hp, hm, ?_⟩
      rw [List.map_cons, findTransitionId_cons, if_neg hc]
      exact hf

theorem transition_issue_unfold (ts : List (String × String)) (nm : String)
    (post : Bool) :
    transition_issue (mkTransitionsResponse ts) nm post =
      (findTransitionId (ts.map fun p => mkTransition p.1 p.2) nm) >>=
        fun transition_id =>
          if ¬ ((transition_id.getD Json.null).truthy) then pure (none, false)
          else if post then pure (transition_id, true) else .error () := rfl

/- ------------------------------------------------------------------ -/
/- Claim theorems                                                      -/
/- ------------------------------------------------------------------ -/

/-- C1: the description extraction raises on a non-null rich-text
document whose top-level `content` list is empty (the `[0]` on the
empty list is an `IndexError`), while a missing or null document, or a
document merely lacking the nested keys, does default to the empty
string.  This refutes the claim that extraction never fails on a
zero-paragraph document. -/
theorem c1_zero_paragraph_description_raises :
    extractDescription (Json.obj [("description",
        Json.obj [("type", Json.str "doc"), ("version", Json.num 1),
                  ("content", Json.arr [])])]) = .error () ∧
    extractDescription (Json.obj []) = .ok (Json.str "") ∧
    extractDescription (Json.obj [("description", Json.null)]) =
      .ok (Json.str "") ∧
    extractDescription (Json.obj [("description",
        Json.obj [("type", Json.str "doc")])]) = .ok (Json.str "") :=
  ⟨rfl, rfl, rfl, rfl⟩

/-- C2: normalization does substitute the documented sentinel values
("Sin título", "Desconocido", "Sin asignar", "Sin prioridad", the
spec's untitled/unknown/unassigned/no-priority sentinels) for missing
or null `summary`/`status`/`assignee`/`priority`/`issuetype` fields —
but it does not succeed on every such issue: a raw issue with a null
assignee and a zero-paragraph description document makes normalization
raise, refuting the "in all these cases normalization succeeds"
part. -/
theorem c2_sentinels_but_not_total :
    normalizeIssue (Json.obj [("key", Json.str "C2-A"),
        ("fields", Json.obj [])]) =
      .ok { key := Json.str "C2-A", summary := Json.str "Sin título",
            status := Json.str "Desconocido",
            assignee := Json.str "Sin asignar",
            priority := Json.str "Sin prioridad",
            issue_type := Json.str "Desconocido",
            created := Json.str "", updated := Json.str "",
            description := Json.str "" } ∧
    normalizeIssue (Json.obj [("key", Json.str "C2-B"),
        ("fields", Json.obj [("assignee", Json.null),
          ("priority", Json.null), ("description", Json.null)])]) =
      .ok { key := Json.str "C2-B", summary := Json.str "Sin título",
            status := Json.str "Desconocido",
            assignee := Json.str "Sin asignar",
            priority := Json.str "Sin prioridad",
            issue_type := Json.str "Desconocido",
            created := Json.str "", updated := Json.str "",
            description := Json.str "" } ∧
    normalizeIssue (Json.obj [("key", Json.str "C2-C"),
        ("fields", Json.obj [("assignee", Json.null),
          ("description", Json.obj [("content", Json.arr [])])])]) =
      .error () :=
  ⟨rfl, rfl, rfl⟩

/-- C3: the query builder maps `assignee="me"` to `assignee =
currentUser()`, joins an assignee and a project condition with `AND`,
falls back to the ordering clause with no arguments, and passes any
non-empty raw query through unchanged regardless of the other
arguments. -/
theorem c3_query_builder_contract :
    buildJql none (some "me") none = "assignee = currentUser()" ∧
    buildJql none (some "bob") (some "ABC") =
      "assignee = 'bob' AND project = 'ABC'" ∧
    buildJql none none none = "order by updated DESC" ∧
    ∀ (q : String) (a p : Option String), q ≠ "" → buildJql (some q) a p = q := by
  refine ⟨rfl, rfl, rfl, ?_⟩
  intro q a p h
  simp [buildJql, strTruthy, h]

/-- C3 witness: a concrete non-empty raw query passes through unchanged
even with assignee and project set. -/
theorem c3_query_builder_witness :
    buildJql (some "status = 'Done' ORDER BY created") (some "me")
      (some "ABC") = "status = 'Done' ORDER BY created" :=
  c3_query_builder_contract.2.2.2 _ _ _ (by decide)

/-- C4 counterexample: the claim says only the exact literal "me" maps to
`currentUser()`, so assignee "ME" should produce the quoted literal
`assignee = 'ME'`; the code lowercases before comparing and produces
`assignee = currentUser()` instead. -/
theorem c4_exact_me_counterexample :
    buildJql none (some "ME") none = "assignee = currentUser()" ∧
    "assignee = currentUser()" ≠ "assignee = 'ME'" :=
  ⟨rfl, by decide⟩

/-- C4 (amended): the `"me"` comparison is case-insensitive — every
non-empty assignee whose lowercasing is not `"me"` yields the quoted
literal condition, and every non-empty assignee whose lowercasing is
`"me"` yields the `currentUser()` condition. -/
theorem c4_assignee_condition_case_insensitive :
    ∀ a : String, a ≠ "" →
      (pyLower a ≠ "me" →
        buildJql none (some a) none = "assignee = '" ++ a ++ "'") ∧
      (pyLower a = "me" →
        buildJql none (some a) none = "assignee = currentUser()") := by
  intro a ha
  constructor <;> intro h <;>
    simp [buildJql, strTruthy, ha, h, intercalate_singleton]

/-- C4 witness: concrete instances of the amended claim at assignees
"bob" (quoted literal) and "Me" (current user). -/
theorem c4_assignee_condition_witness :
    buildJql none (some "bob") none = "assignee = 'bob'" ∧
    buildJql none (some "Me") none = "assignee = currentUser()" :=
  ⟨(c4_assignee_condition_case_insensitive "bob" (by decide)).1 (by decide),
   (c4_assignee_condition_case_insensitive "Me" (by decide)).2 (by decide)⟩

/-- C5: over a well-formed transitions response (string display names,
non-empty string ids), the requested name is matched case-insensitively;
when no transition matches, the call returns `False` and the mutating
POST is never issued (the outcome holds whatever the POST would have
answered); when some transition matches, the POST is issued with the
matching transition's id and the call returns `True`. -/
theorem c5_transition_matching :
    ∀ (ts : List (String × String)) (nm : String) (post : Bool),
      ((∀ p ∈ ts, pyLower p.1 ≠ pyLower nm) →
        transition_issue (mkTransitionsResponse ts) nm post =
          .ok (none, false)) ∧
      ((∀ p ∈ ts, p.2 ≠ "") → (∃ p ∈ ts, pyLower p.1 = pyLower nm) →
        ∃ p ∈ ts, pyLower p.1 = pyLower nm ∧
          transition_issue (mkTransitionsResponse ts) nm true =
            .ok (some (Json.str p.2), true)) := by
  intro ts nm post
  constructor
  · intro h
    rw [transition_issue_unfold, findTransitionId_no_match ts nm h]
    rfl
  · intro hid hex
    rcases findTransitionId_first_match ts nm hex with ⟨p, hp, hm, hf⟩
    refine ⟨p, hp, hm, ?_⟩
    rw [transition_issue_unfold, hf]
    have hne : p.2 ≠ "" := hid p hp
    simp [Bind.bind, Except.bind, Json.truthy, hne]
    rfl

/-- C5 witness: "in progress" matches a transition named "In Progress"
and is applied by its id "21"; against a list whose only transition is
"Done" there is no match, the POST is skipped and `False` is
returned. -/
theorem c5_transition_witness :
    transition_issue (mkTransitionsResponse [("In Progress", "21")])
      "in progress" true = .ok (some (Json.str "21"), true) ∧
    transition_issue (mkTransitionsResponse [("Done", "31")])
      "in progress" false = .ok (none, false) := by
  constructor
  · rcases (c5_transition_matching [("In Progress", "21")] "in progress"
        true).2 (by decide) ⟨("In Progress", "21"), by decide, by decide⟩
      with ⟨p, hp, _, hres⟩
    have : p = ("In Progress", "21") := by
      rcases List.mem_singleton.mp hp with h
      exact h
    rw [this] at hres
    exact hres
  · exact (c5_transition_matching [("Done", "31")] "in progress"
      false).1 (by decide)

/-- C6 counterexample: the claim quantifies over every backend response;
with `max_results = 0` and a response whose `issues` array holds one
issue, `search_issues` returns one Issue — the code forwards
`maxResults` to the backend but never truncates the returned page
client-side. -/
theorem c6_max_results_counterexample :
    (search_issues none none none 0 (Json.obj [("issues", Json.arr
        [Json.obj [("key", Json.str "C6-1"),
                   ("fields", Json.obj [])]])])).map List.length =
      Except.ok 1 ∧
    ¬ ((1 : Int) ≤ 0) :=
  ⟨rfl, by decide⟩

/-- C6 (amended): the normalized result has exactly one Issue per entry
of the backend's `issues` array, so whenever the backend honours the
requested page size (returns at most `max_results` entries), the list
returned by `search_issues` has length at most `max_results`. -/
theorem c6_page_bound (jql a p : Option String) (mr : Int) (xs : List Json)
    (out : List JiraIssue) (hxs : (xs.length : Int) ≤ mr)
    (h : search_issues jql a p mr (Json.obj [("issues", Json.arr xs)]) =
      .ok out) : (out.length : Int) ≤ mr := by
  rw [search_issues_on_array] at h
  have hlen := normalizeAll_length xs out h
  omega

/-- C6 witness: a one-element page against `max_results = 5` stays within
the bound. -/
theorem c6_page_bound_witness :
    (([{ key := Json.str "C6-1", summary := Json.str "Sin título",
          status := Json.str "Desconocido",
          assignee := Json.str "Sin asignar",
          priority := Json.str "Sin prioridad",
          issue_type := Json.str "Desconocido",
          created := Json.str "", updated := Json.str "",
          description := Json.str "" }] : List JiraIssue).length : Int) ≤ 5 :=
  c6_page_bound none none none 5
    [Json.obj [("key", Json.str "C6-1"), ("fields", Json.obj [])]] _
    (by decide) rfl

/-- C7: `read_resource` never lets an exception escape — its result is a
total function of its inputs — and produces a payload carrying an
`error` field both for every URI outside the three known resources and
whenever the backend call behind a known resource raises. -/
theorem c7_read_resource_errors_are_data :
    ∀ (uri : String) (mi : Except String (List JiraIssue))
      (ps : Except String (List JiraProject))
      (rc : Except String (List JiraIssue)),
      (uri ≠ "jira://my-issues" → uri ≠ "jira://projects" →
        uri ≠ "jira://recent-issues" →
        read_resource uri mi ps rc =
          Json.obj [("error",
            Json.str ("Recurso no encontrado: " ++ uri))] ∧
        hasErrorField (read_resource uri mi ps rc) = true) ∧
      (∀ e, mi = .error e →
        hasErrorField (read_resource "jira://my-issues" mi ps rc) = true) ∧
      (∀ e, ps = .error e →
        hasErrorField (read_resource "jira://projects" mi ps rc) = true) ∧
      (∀ e, rc = .error e →
        hasErrorField (read_resource "jira://recent-issues" mi ps rc) =
          true) := by
  intro uri mi ps rc
  refine ⟨?_, ?_, ?_, ?_⟩
  · intro h1 h2 h3
    constructor
    · simp [read_resource, h1, h2, h3]
    · simp [read_resource, h1, h2, h3, hasErrorField]
  · intro e he; subst he; rfl
  · intro e he; subst he; rfl
  · intro e he; subst he; rfl

/-- C7 witness: a concrete unknown URI yields the structured error
payload, and a backend failure while reading `jira://my-issues` also
surfaces as an `error` field rather than an exception. -/
theorem c7_read_resource_witness :
    read_resource "jira://boards" (.ok []) (.ok []) (.ok []) =
      Json.obj [("error", Json.str "Recurso no encontrado: jira://boards")] ∧
    hasErrorField (read_resource "jira://my-issues"
      (.error "HTTP error 500") (.ok []) (.ok [])) = true :=
  ⟨((c7_read_resource_errors_are_data "jira://boards" (.ok []) (.ok [])
      (.ok [])).1 (by decide) (by decide) (by decide)).1,
   (c7_read_resource_errors_are_data "jira://boards"
      (.error "HTTP error 500") (.ok []) (.ok [])).2.1 "HTTP error 500" rfl⟩

/-- C8: each mutating/lookup tool validates its required arguments before
any backend interaction: `create_issue` with `project_key`, `summary`
or `description` absent, `get_issue` with `issue_key` absent and
`transition_issue` with `issue_key` or `transition` absent are all
rejected with a user-facing text error, the dispatch never reaching a
backend call. -/
theorem c8_required_args_checked :
    ∀ args : List (String × Json),
      ((args.lookup "project_key" = none ∨ args.lookup "summary" = none ∨
          args.lookup "description" = none) →
        callToolStep "create_issue" args =
          .reject "❌ Error: Se requieren project_key, summary y description") ∧
      (args.lookup "issue_key" = none →
        callToolStep "get_issue" args =
          .reject "❌ Error: Se requiere issue_key") ∧
      ((args.lookup "issue_key" = none ∨ args.lookup "transition" = none) →
        callToolStep "transition_issue" args =
          .reject "❌ Error: Se requieren issue_key y transition") := by
  intro args
  refine ⟨?_, ?_, ?_⟩
  · rintro (h | h | h) <;> simp [callToolStep, argGet, h, Json.truthy]
  · intro h; simp [callToolStep, argGet, h, Json.truthy]
  · rintro (h | h) <;> simp [callToolStep, argGet, h, Json.truthy]

/-- C8 witness: `create_issue` called with only `project_key` and
`summary` is rejected with the validation message. -/
theorem c8_required_args_witness :
    callToolStep "create_issue"
      [("project_key", Json.str "ABC"), ("summary", Json.str "título")] =
      .reject "❌ Error: Se requieren project_key, summary y description" :=
  (c8_required_args_checked _).1 (Or.inr (Or.inr rfl))

/-- C9: the assignment request body carries the given assignee string as
`accountId`, except that the exact literal "me" is sent as a null
`accountId` (no client-side resolution), and on backend success the
call returns `True`. -/
theorem c9_assign_me_null_sentinel :
    (∀ a : String, a ≠ "me" →
      assign_issue a true = .ok (Json.obj [("accountId", Json.str a)], true)) ∧
    assign_issue "me" true = .ok (Json.obj [("accountId", Json.null)], true) := by
  constructor
  · intro a h
    simp [assign_issue, assignBody, h]
  · rfl

/-- C9 witness: a concrete account id is passed through as `accountId`
and the call reports success. -/
theorem c9_assign_witness :
    assign_issue "5b10ac8d82e05b22cc7d4ef5" true =
      .ok (Json.obj [("accountId", Json.str "5b10ac8d82e05b22cc7d4ef5")],
           true) :=
  c9_assign_me_null_sentinel.1 "5b10ac8d82e05b22cc7d4ef5" (by decide)

/-- C10: whenever `get_issue` completes without raising, its result is an
actual Issue, never the `None` of its `Optional` annotation, so the
dispatcher's not-found message branch after a successful call can never
fire. -/
theorem c10_get_issue_never_none :
    ∀ (response : Json) (issue : Option JiraIssue),
      get_issue response = .ok issue →
      issue ≠ none ∧ ∀ k : String, getIssueNotFoundBranch k issue = none := by
  intro r o h
  cases hn : normalizeIssue r with
  | error e => simp [get_issue, hn] at h
  | ok i =>
    have ho : o = some i := by
      simp [get_issue, hn] at h
      exact h.symm
    subst ho
    exact ⟨by simp, fun k => rfl⟩

/-- C10 witness: a concrete successful backend response yields `some`
Issue and the not-found branch stays silent. -/
theorem c10_get_issue_witness :
    (some { key := Json.str "C10-1", summary := Json.str "Hola",
            status := Json.str "Desconocido",
            assignee := Json.str "Sin asignar",
            priority := Json.str "Sin prioridad",
            issue_type := Json.str "Desconocido",
            created := Json.str "", updated := Json.str "",
            description := Json.str "" } : Option JiraIssue) ≠ none ∧
    getIssueNotFoundBranch "C10-1"
      (some { key := Json.str "C10-1", summary := Json.str "Hola",
              status := Json.str "Desconocido",
              assignee := Json.str "Sin asignar",
              priority := Json.str "Sin prioridad",
              issue_type := Json.str "Desconocido",
              created := Json.str "", updated := Json.str "",
              description := Json.str "" }) = none :=
  ⟨(c10_get_issue_never_none
      (Json.obj [("key", Json.str "C10-1"),
        ("fields", Json.obj [("summary", Json.str "Hola")])]) _ rfl).1,
   (c10_get_issue_never_none
      (Json.obj [("key", Json.str "C10-1"),
        ("fields", Json.obj [("summary", Json.str "Hola")])]) _ rfl).2 "C10-1"⟩

end JiraMcp
